import Mathlib

/-!
Verification of the bot-session lifecycle orchestrator of the Meeting_Bot
repository (backend).  The definitions below are a shallow embedding of the
Python sources:

* `backend/app/services/transcript_service.py` (transcript/recording store),
* `backend/core/process.py` (`terminate_process_gracefully`),
* `backend/app/routes.py` (`join_meeting`, `leave_bot`, `meetingbaas_webhook`),
* `backend/config/persona_utils.py` (`PersonaManager.get_persona`).

Python floats that carry word timings are modelled as rationals; wall-clock
timestamps (`datetime.now()`) are modelled as an explicit structure passed as
an argument; dictionaries are modelled as association lists keyed by strings.
-/

namespace MeetingBot

/-! ## Data model: webhook payloads (backend/app/models.py) -/

/-- `WordItem`: a single transcript word with timing.  The source field `end`
is a reserved word in Lean and is rendered `endTime`. -/
structure WordItem where
  start : ℚ
  endTime : ℚ
  word : String
deriving Repr, DecidableEq

/-- `TranscriptSegment`: one speaker's segment (models.py). -/
structure TranscriptSegment where
  speaker : String
  words : List WordItem
deriving Repr, DecidableEq

/-- `MeetingCompletedData`: payload of a `complete` webhook (models.py). -/
structure MeetingCompletedData where
  botId : String
  mp4 : String
  speakers : List String
  transcript : List TranscriptSegment
deriving Repr, DecidableEq

/-- `MeetingFailedData`: payload of a `failed` webhook (models.py). -/
structure MeetingFailedData where
  botId : String
  error : String
deriving Repr, DecidableEq

/-! ## Time stamps

`datetime.now()` results are modelled with second and sub-second fields so
that the second-granularity formatting done by
`datetime.now().strftime('%Y%m%d_%H%M%S')` is visible in the model. -/

/-- A wall-clock instant as produced by Python `datetime.now()`. -/
structure PyDateTime where
  year : ℕ
  month : ℕ
  day : ℕ
  hour : ℕ
  minute : ℕ
  second : ℕ
  microsecond : ℕ
deriving Repr, DecidableEq

/-- Zero-pad a number to two digits (as `%m`, `%d`, `%H`, `%M`, `%S` do). -/
def pad2 (n : ℕ) : String :=
  if n < 10 then "0" ++ toString n else toString n

/-- Zero-pad a number to four digits (as `%Y` does). -/
def pad4 (n : ℕ) : String :=
  if n < 10 then "000" ++ toString n
  else if n < 100 then "00" ++ toString n
  else if n < 1000 then "0" ++ toString n
  else toString n

/-- `strftime('%Y%m%d_%H%M%S')`: formats to second granularity; the
`microsecond` field is dropped. -/
def fmtYmdHms (t : PyDateTime) : String :=
  pad4 t.year ++ pad2 t.month ++ pad2 t.day ++ "_" ++
    pad2 t.hour ++ pad2 t.minute ++ pad2 t.second

/-! ## Association lists standing for Python dicts -/

/-- Dict lookup: `d.get(k)`. -/
def lookupAssoc {α : Type} (l : List (String × α)) (k : String) : Option α :=
  (l.find? (fun p => p.1 == k)).map (·.2)

/-- Dict assignment `d[k] = v`: replaces the value under an existing key,
otherwise appends the binding (insertion order, as Python dicts keep it). -/
def insertAssoc {α : Type} (l : List (String × α)) (k : String) (v : α) :
    List (String × α) :=
  if l.any (fun p => p.1 == k) then
    l.map (fun p => if p.1 = k then (k, v) else p)
  else l ++ [(k, v)]

/-- Dict removal `d.pop(k, None)`: drops the binding for `k`. -/
def removeAssoc {α : Type} (l : List (String × α)) (k : String) :
    List (String × α) :=
  l.filter (fun p => !(p.1 == k))

/-! ## Transcript service (transcript_service.py) -/

/-- `TranscriptMetadata` (transcript_service.py). -/
structure TranscriptMetadata where
  botId : String
  meetingId : String
  timestamp : PyDateTime
  duration : Option ℚ
  numSpeakers : ℕ
  recordingPath : Option String := none
  transcriptPath : String
deriving Repr, DecidableEq

/-- The in-memory metadata cache `self._metadata_cache`. -/
abbrev MetaCache := List (String × TranscriptMetadata)

/-- `TRANSCRIPT_DIR / f"{meeting_id}_transcript.json"`. -/
def transcriptPathFor (meetingId : String) : String :=
  "data/transcripts/" ++ meetingId ++ "_transcript.json"

/-- `RECORDING_DIR / f"{meeting_id}.mp4"`. -/
def recordingPathFor (meetingId : String) : String :=
  "data/recordings/" ++ meetingId ++ ".mp4"

/-- `meeting_id = f"{bot_id}_{datetime.now().strftime('%Y%m%d_%H%M%S')}"`. -/
def meetingIdOf (botId : String) (now : PyDateTime) : String :=
  botId ++ "_" ++ fmtYmdHms now

/-- Duration computation inside `save_meeting_transcript`
(transcript_service.py lines 106-115): when the transcript list is non-empty
and both the first segment and the last segment have words, the duration is
the last word's `end` of the last segment minus the first word's `start` of
the first segment; otherwise it stays `None`. -/
def computeDuration (ts : List TranscriptSegment) : Option ℚ :=
  match ts.head?, ts.getLast? with
  | some firstSeg, some lastSeg =>
    match firstSeg.words.head?, lastSeg.words.getLast? with
    | some fw, some lw => some (lw.endTime - fw.start)
    | _, _ => none
  | _, _ => none

/-- The duration the spec's words describe for claim C3: the span from the
start of the first word across ALL segments to the end of the last word
across ALL segments, unset when either endpoint is absent.  Stated from the
spec sentence, to be compared with `computeDuration` above. -/
def specDurationAllWords (ts : List TranscriptSegment) : Option ℚ :=
  let ws := (ts.map (·.words)).flatten
  match ws.head?, ws.getLast? with
  | some fw, some lw => some (lw.endTime - fw.start)
  | _, _ => none

/-- `save_meeting_transcript` (transcript_service.py lines 82-138): computes
the meeting id from the bot id and the current wall clock, computes the
duration, and records a metadata entry whose `recording_path` is still unset
(the recording download is scheduled in the background and only a successful
download sets it, see `downloadRecordingSuccess`).  The transcript-file write
and the background-task scheduling are I/O effects outside the state modelled
here.  Returns the meeting id and the updated metadata cache.  The metadata
record built by the call is `metaOf`. -/
def metaOf (botId : String) (md : MeetingCompletedData) (now : PyDateTime) :
    TranscriptMetadata :=
  { botId := botId
    meetingId := meetingIdOf botId now
    timestamp := now
    duration := computeDuration md.transcript
    numSpeakers := md.speakers.length
    recordingPath := none
    transcriptPath := transcriptPathFor (meetingIdOf botId now) }

/-- See the comment on `metaOf`: the body of `save_meeting_transcript`. -/
def saveMeetingTranscript (cache : MetaCache) (botId : String)
    (md : MeetingCompletedData) (now : PyDateTime) : String × MetaCache :=
  (meetingIdOf botId now,
    insertAssoc cache (meetingIdOf botId now) (metaOf botId md now))

/-- The metadata update performed by `_download_recording` on a successful
HTTP 200 download (transcript_service.py lines 164-168): sets the metadata's
`recording_path` to the recording file path and writes it back into the
cache.  On failure the cache is left untouched, which is the identity on this
state. -/
def downloadRecordingSuccess (cache : MetaCache) (meetingId : String)
    (meta : TranscriptMetadata) : MetaCache :=
  insertAssoc cache meetingId
    { meta with recordingPath := some (recordingPathFor meetingId) }

/-- `get_recording_path` (transcript_service.py lines 203-221): returns the
recording path only when a metadata entry exists, it records a recording
path, and the file exists on disk.  The file system is modelled as the list
`fs` of existing paths.  (The source checks Python falsiness of
`metadata.recording_path`; the only writer stores a non-empty path, so the
check is modelled as the `Option` match.) -/
def getRecordingPath (cache : MetaCache) (fs : List String)
    (meetingId : String) : Option String :=
  match lookupAssoc cache meetingId with
  | none => none
  | some meta =>
    match meta.recordingPath with
    | none => none
    | some p => if p ∈ fs then some p else none

/-! ## Process supervisor (backend/core/process.py) -/

/-- A child process modelled by its observable liveness: `exited k` is the
result of the `k`-th `process.poll()` check being non-`None` (the initial
check in `terminate_process_gracefully` is poll index `0`, the checks inside
the waiting loop are indices `1, 2, ...`). -/
def ProcModel : Type := ℕ → Bool

/-- Signals sent to the child process. -/
inductive Sig where
  | term
  | kill
deriving Repr, DecidableEq

/-- Outcome of `terminate_process_gracefully`: whether the graceful path was
taken (`True` in the source), the signals that were sent, and how many polls
the waiting loop performed. -/
structure TermResult where
  graceful : Bool
  signals : List Sig
  polls : ℕ
deriving Repr, DecidableEq

/-- The waiting loop `for _ in range(int(timeout * 10))` of
`terminate_process_gracefully`: polls at poll indices `k, k+1, ...` for at
most `fuel` iterations (one `time.sleep(0.1)` after each negative poll) and
returns the number of polls performed when an exit was observed, `none` when
the fuel ran out. -/
def termPollLoop (exited : ProcModel) (k : ℕ) : ℕ → Option ℕ
  | 0 => none
  | fuel + 1 => if exited k then some k else termPollLoop exited (k + 1) fuel

/-- `terminate_process_gracefully` (process.py lines 115-154): returns
`Graceful` at once when the process is already dead; otherwise sends the
cooperative `SIGTERM`, polls ten times per second until `timeout` elapses,
and force-kills when the process is still alive, reporting `Forced`
(`False`).  The exception path around `process.terminate()` is not modelled:
signalling is assumed not to raise. -/
def terminateProcessGracefully (exited : ProcModel) (timeout : ℚ) :
    TermResult :=
  if exited 0 then
    { graceful := true, signals := [], polls := 0 }
  else
    let fuel := (⌊timeout * 10⌋).toNat
    match termPollLoop exited 1 fuel with
    | some k => { graceful := true, signals := [Sig.term], polls := k }
    | none => { graceful := false, signals := [Sig.term, Sig.kill], polls := fuel }

/-! ## Webhook ingestion (routes.py `meetingbaas_webhook`) -/

/-- The raw `data` object of a webhook event before the per-kind pydantic
models validate it; absent JSON keys are `none`.  The opaque `status` object
of a `bot.status_change` event is rendered as a string. -/
structure RawWebhookData where
  botId : Option String := none
  mp4 : Option String := none
  speakers : Option (List String) := none
  transcript : Option (List TranscriptSegment) := none
  errMsg : Option String := none
  statusObj : Option String := none
deriving Repr, DecidableEq

/-- `MeetingWebhookEvent` (models.py): event kind plus raw data. -/
structure MeetingWebhookEvent where
  event : String
  data : RawWebhookData
deriving Repr, DecidableEq

/-- `MeetingCompletedData(**webhook_event.data)`: pydantic validation, which
fails when a required field is missing. -/
def parseCompleted (d : RawWebhookData) : Option MeetingCompletedData :=
  match d.botId, d.mp4, d.speakers, d.transcript with
  | some b, some m, some s, some t =>
    some { botId := b, mp4 := m, speakers := s, transcript := t }
  | _, _, _, _ => none

/-- `MeetingFailedData(**webhook_event.data)`. -/
def parseFailed (d : RawWebhookData) : Option MeetingFailedData :=
  match d.botId, d.errMsg with
  | some b, some e => some { botId := b, error := e }
  | _, _ => none

/-- `MeetingStatusData(**webhook_event.data)`: bot id plus opaque status. -/
def parseStatus (d : RawWebhookData) : Option (String × String) :=
  match d.botId, d.statusObj with
  | some b, some s => some (b, s)
  | _, _ => none

/-- A response of the webhook route: either a JSON body returned with HTTP
200 (its `status` field, `message`, and the optional `meeting_id` / `error`
fields), or an `HTTPException` raised with status 500. -/
inductive WebhookResponse where
  | json (statusField message : String) (meetingId : Option String)
      (errField : Option String)
  | httpException (code : ℕ) (detail : String)
deriving Repr, DecidableEq

/-- `meetingbaas_webhook` (routes.py lines 641-699): dispatches on the event
kind.  `complete` saves the transcript synchronously and answers with the new
meeting id; `failed` answers with an error-classified body; a status change
is logged only; any other kind is logged as a warning and answered, with
HTTP 200, by a body whose `status` field is `"error"`.  A pydantic
validation failure falls into the outer `except` and raises HTTP 500. -/
def meetingbaasWebhook (cache : MetaCache) (now : PyDateTime)
    (ev : MeetingWebhookEvent) : WebhookResponse × MetaCache :=
  if ev.event = "complete" then
    match parseCompleted ev.data with
    | none =>
      (.httpException 500 "Failed to process webhook: validation error", cache)
    | some md =>
      let r := saveMeetingTranscript cache md.botId md now
      (.json "success" "Meeting transcript saved" (some r.1) none, r.2)
  else if ev.event = "failed" then
    match parseFailed ev.data with
    | none =>
      (.httpException 500 "Failed to process webhook: validation error", cache)
    | some fd =>
      (.json "error" "Meeting failed" none (some fd.error), cache)
  else if ev.event = "bot.status_change" then
    match parseStatus ev.data with
    | none =>
      (.httpException 500 "Failed to process webhook: validation error", cache)
    | some _ =>
      (.json "success" "Bot status change recorded" none none, cache)
  else
    (.json "error" ("Unknown webhook event: " ++ ev.event) none none, cache)

/-! ## Session state and the leave/stop flow (routes.py `leave_bot`)

`core/connection.py` and `core/router.py` are not part of the provided
sources; the registry operations they provide are modelled from the spec
where noted. -/

/-- One value of the `MEETING_DETAILS` table: the tuple
`(meeting_url, persona_name, meetingbaas_bot_id, enable_tools,
streaming_audio_frequency, entry_message, text_message)` stored by
`join_meeting`. -/
structure MeetingDetails where
  meetingUrl : String
  personaName : String
  botId : Option String
  enableTools : Bool
  audioFrequency : String
  entryMessage : Option String
  textMessage : Option String
deriving Repr, DecidableEq

/-- The orchestrator's process-wide mutable state: `MEETING_DETAILS`,
`PIPECAT_PROCESSES` (each process by its liveness model), and the connection
registry's two socket tables and closing flags.  The socket tables are
modelled by their key sets (a key present means an open socket of that role
is registered for that client id). -/
structure ServerState where
  meetingDetails : List (String × MeetingDetails)
  pipecatProcesses : List (String × ProcModel)
  pipecatConnections : List String
  activeConnections : List String
  closingFlags : List String

/-- Python truthiness of an `Optional[str]`: `None` and `""` are falsy. -/
def pyTruthyOpt : Option String → Bool
  | none => false
  | some s => s ≠ ""

/-- The lookup loop of `leave_bot` (routes.py lines 368-373): the first
client id whose stored details carry the requested MeetingBaas bot id. -/
def findClientId (details : List (String × MeetingDetails))
    (mbId : Option String) : Option String :=
  (details.find? (fun p => p.2.botId == mbId)).map (·.1)

/-- The externally observable steps of one run of the leave flow, in
execution order. -/
inductive LeaveStep where
  | callLeaveApi
  | markClosing
  | disconnectSubprocess
  | disconnectClient
  | gracePause
  | terminateProcess
  | removeProcessEntry
  | removeDetails
deriving Repr, DecidableEq

/-- A response of the leave route: the early 400 rejection, or the final
JSON body (message, `status` field, bot id). -/
inductive LeaveResponse where
  | badRequest (message statusField : String)
  | done (message statusField botId : String)
deriving Repr, DecidableEq

/-- Socket-teardown block of `leave_bot` (routes.py lines 395-419), entered
when a client id was resolved: mark the client closing, disconnect the
Pipecat (subprocess-facing) socket when registered, then disconnect the
client-facing socket when registered, then `await asyncio.sleep(0.5)`.
`mark_closing` and `disconnect` internals are modelled from the spec:
`disconnect` closes the socket's transport and removes it from the registry.
Returns the updated state and the trace of this block. -/
def leaveSocketsPhase (st : ServerState) (cid : String) :
    ServerState × List LeaveStep :=
  let st1 := { st with closingFlags := st.closingFlags ++ [cid] }
  let (st2, tr2) :=
    if cid ∈ st1.pipecatConnections then
      ({ st1 with pipecatConnections :=
          st1.pipecatConnections.filter (fun c => !(c == cid)) },
        [LeaveStep.disconnectSubprocess])
    else (st1, [])
  let (st3, tr3) :=
    if cid ∈ st2.activeConnections then
      ({ st2 with activeConnections :=
          st2.activeConnections.filter (fun c => !(c == cid)) },
        [LeaveStep.disconnectClient])
    else (st2, [])
  (st3, [LeaveStep.markClosing] ++ tr2 ++ tr3 ++ [LeaveStep.gracePause])

/-- Process-teardown block of `leave_bot` (routes.py lines 421-448), entered
when a client id was resolved: only when the client id has an entry in
`PIPECAT_PROCESSES` does it terminate the process (when still running), pop
the process entry, and pop the `MEETING_DETAILS` entry.  When no process
entry exists the whole block — including the details cleanup — is skipped. -/
def leaveProcessPhase (st : ServerState) (cid : String) :
    ServerState × List LeaveStep :=
  match lookupAssoc st.pipecatProcesses cid with
  | none => (st, [])
  | some proc =>
    let trTerm := if proc 0 = false then [LeaveStep.terminateProcess] else []
    let st1 := { st with pipecatProcesses := removeAssoc st.pipecatProcesses cid }
    let (st2, trDet) :=
      if (lookupAssoc st1.meetingDetails cid).isSome then
        ({ st1 with meetingDetails := removeAssoc st1.meetingDetails cid },
          [LeaveStep.removeDetails])
      else (st1, [])
    (st2, trTerm ++ [LeaveStep.removeProcessEntry] ++ trDet)

/-- `leave_bot` (routes.py lines 336-456).  Inputs: the path parameter
`bot_id`, the request body's optional `bot_id`, the outcome of the
`leave_meeting_bot` provider call (a collaborator, passed as `apiOk`), and
the server state.  Returns the response, the final state, and the trace of
the teardown steps in execution order. -/
def leaveBot (st : ServerState) (botId : String) (reqBotId : Option String)
    (apiOk : Bool) : LeaveResponse × ServerState × List LeaveStep :=
  if botId = "" ∧ pyTruthyOpt reqBotId = false then
    (.badRequest "Bot ID is required" "error", st, [])
  else
    let mbId : Option String := if botId ≠ "" then some botId else reqBotId
    let cid? := findClientId st.meetingDetails mbId
    let (success, tr1) :=
      if pyTruthyOpt mbId then (apiOk, [LeaveStep.callLeaveApi])
      else (true, ([] : List LeaveStep))
    let (st1, tr2) :=
      match cid? with
      | some cid => leaveSocketsPhase st cid
      | none => (st, [])
    let (st2, tr3) :=
      match cid? with
      | some cid => leaveProcessPhase st1 cid
      | none => (st1, [])
    (.done "Bot removal request processed"
        (if success then "success" else "partial") (mbId.getD ""),
      st2, tr1 ++ tr2 ++ tr3)

/-! ## Session creation (routes.py `join_meeting`) -/

/-- `BotRequest` (models.py): the session-creation request body. -/
structure BotRequest where
  meetingUrl : String
  botName : String := ""
  personas : Option (List String) := none
  botImage : Option String := none
  entryMessage : Option String := none
  textMessage : Option String := none
  contextInfo : Option String := none
  enableTools : Bool := true
  webhookUrl : Option String := none
deriving Repr, DecidableEq

/-- Collaborator inputs of one `join_meeting` run: the generated
`uuid.uuid4()` client id, the WebSocket bridge address, the persona-table
keys, the random fallback pick over those keys, and the outcome of the
`create_meeting_bot` provider call (`some id` on success). -/
structure JoinCtx where
  generatedClientId : String
  websocketUrl : String
  personaKeys : List String
  randomPersona : Option String
  apiBotId : Option String
deriving Repr, DecidableEq

/-- Outward side effects of `join_meeting`.  A process spawn is listed so
that "no process is spawned" is expressible; `join_meeting` itself never
emits it (the child process starts later, when the bridge socket connects). -/
inductive JoinEffect where
  | createBotCall
  | spawnProcess
deriving Repr, DecidableEq

/-- A response of the creation route: the early 400 validation rejection,
the 201 success carrying the MeetingBaas bot id, or the 500 provider
failure. -/
inductive JoinResult where
  | badRequest (message statusField : String)
  | created (botId : String)
  | serverError (message statusField : String)
deriving Repr, DecidableEq

/-- Persona-name selection of `join_meeting` (routes.py lines 212-234):
the first requested persona when given, else the bot name, else — when that
is no known persona key — a random known persona, with `"baas_onboarder"` as
last resort. -/
def selectPersonaName (req : BotRequest) (ctx : JoinCtx) : String :=
  match req.personas with
  | some (p :: _) => p
  | _ =>
    if req.botName ∈ ctx.personaKeys then req.botName
    else
      match ctx.randomPersona with
      | some r => r
      | none => "baas_onboarder"

/-- `join_meeting` (routes.py lines 146-320): rejects an empty
`meeting_url` with a 400 validation error before touching anything; then
stores the meeting details under the fresh client id (bot id still unset),
calls `create_meeting_bot`, and on success rewrites the stored details with
the returned bot id and answers 201; on provider failure it answers 500 and
the detail entry stays registered without a remote id.  The provider-call
arguments (persona display name, image, webhook url, ...) are abstracted
into the `createBotCall` effect.  Returns the response, the new state, and
the effects. -/
def joinMeeting (st : ServerState) (req : BotRequest) (ctx : JoinCtx) :
    JoinResult × ServerState × List JoinEffect :=
  if req.meetingUrl = "" then
    (.badRequest "Meeting URL is required" "error", st, [])
  else
    let personaName := selectPersonaName req ctx
    let details0 : MeetingDetails :=
      { meetingUrl := req.meetingUrl
        personaName := personaName
        botId := none
        enableTools := req.enableTools
        audioFrequency := "16khz"
        entryMessage := req.entryMessage
        textMessage := req.textMessage }
    let tbl1 := insertAssoc st.meetingDetails ctx.generatedClientId details0
    let st1 := { st with meetingDetails := tbl1 }
    match ctx.apiBotId with
    | some mbId =>
      let details1 := { details0 with botId := some mbId }
      let tbl2 := insertAssoc tbl1 ctx.generatedClientId details1
      let st2 := { st1 with meetingDetails := tbl2 }
      (.created mbId, st2, [.createBotCall])
    | none =>
      (.serverError "Failed to create bot through MeetingBaas API" "error",
        st1, [.createBotCall])

/-! ## Persona manager (config/persona_utils.py `get_persona`)

Python persona records are mutable dictionaries; `get_persona` takes a
`.copy()` of the stored record before changing it.  To make that visible the
records live in a heap (a list of records addressed by index) and the
persona table maps folder names to heap addresses; `.copy()` allocates a
fresh address. -/

/-- One persona record as produced by `parse_readme` plus the fields
`get_persona` may add.  `path` is absent until `get_persona` sets it. -/
structure PersonaRec where
  name : String
  prompt : String
  image : String
  entryMessage : String
  cartesiaVoiceId : String := ""
  gender : String := ""
  speechRate : Option ℚ := none
  path : Option String := none
deriving Repr, DecidableEq

/-- The `PersonaManager`'s state: the record heap, the `personas` dict
(folder name to heap address), and `personas_dir`. -/
structure PMState where
  heap : List PersonaRec
  table : List (String × ℕ)
  personasDir : String

/-- `PERSONA_INTERACTION_INSTRUCTIONS`.  Modelled from the spec: the
constant lives in `config/prompts.py`, which is not among the provided
sources; `get_persona` appends it to the returned prompt.  Its exact text
does not matter for any claim. -/
def PERSONA_INTERACTION_INSTRUCTIONS : String :=
  "\n\nINTERACTION INSTRUCTIONS\n"

/-- `str.lower()`, written over the character list. -/
def pyToLower (s : String) : String :=
  ⟨s.data.map Char.toLower⟩

/-- `str.replace(" ", "_")`: a single-character replacement is a map over
the characters. -/
def pyReplaceSpaceUnderscore (s : String) : String :=
  ⟨s.data.map (fun c => if c = ' ' then '_' else c)⟩

/-- `name.lower().replace(" ", "_")`. -/
def folderNameOf (s : String) : String :=
  pyReplaceSpaceUnderscore (pyToLower s)

/-- Split a character list at a separator, keeping empty pieces, as Python
`str.split(sep)` does. -/
def splitCharList (sep : Char) : List Char → List (List Char)
  | [] => [[]]
  | c :: cs =>
    match splitCharList sep cs with
    | [] => if c = sep then [[], []] else [[c]]
    | h :: t => if c = sep then [] :: h :: t else (c :: h) :: t

/-- Python `str.split(sep)` for a one-character separator. -/
def splitOnCharS (sep : Char) (s : String) : List String :=
  (splitCharList sep s.data).map (fun l => ⟨l⟩)

/-- Python `str.split()`: split on whitespace, empty pieces dropped (the
names handled here use plain spaces). -/
def splitWords (s : String) : List String :=
  (splitOnCharS ' ' s).filter (fun w => w ≠ "")

/-- `len(words & persona_words)` where both sides are Python sets. -/
def wordOverlap (nameWords : List String) (key : String) : ℕ :=
  (((splitOnCharS '_' key).dedup).filter (fun w => w ∈ nameWords.dedup)).length

/-- The closest-match loop of `get_persona` (persona_utils.py lines
452-461): folds over the table entries keeping the entry with the strictly
largest word overlap (ties keep the earlier entry, overlap 0 keeps `None`). -/
def closestMatch (entries : List (String × ℕ)) (nameWords : List String) :
    Option (String × ℕ) × ℕ :=
  entries.foldl
    (fun acc e =>
      if wordOverlap nameWords e.1 > acc.2 then (some e, wordOverlap nameWords e.1)
      else acc)
    (none, 0)

/-- Name resolution of `get_persona` (persona_utils.py lines 442-474): a
truthy name resolves by exact folder match, then by closest word overlap
(at least one shared word), else raises `KeyError`; a falsy name picks a
random stored record (`random.choice`, modelled by the `randPick` index;
an empty table raises).  Returns the heap address of the chosen stored
record together with the name argument when it was truthy. -/
def resolvePersona (st : PMState) (name : Option String) (randPick : ℕ) :
    Except String (ℕ × Option String) :=
  match name with
  | some n =>
    if n ≠ "" then
      match lookupAssoc st.table (folderNameOf n) with
      | some addr => .ok (addr, some n)
      | none =>
        match closestMatch st.table (splitWords (pyToLower n)) with
        | (some e, maxOverlap) =>
          if maxOverlap ≥ 1 then .ok (e.2, some n)
          else .error ("Persona " ++ n ++ " not found")
        | (none, _) => .error ("Persona " ++ n ++ " not found")
    else
      match st.table.get? (randPick % st.table.length) with
      | some e => .ok (e.2, none)
      | none => .error "IndexError: empty persona table"
  | none =>
    match st.table.get? (randPick % st.table.length) with
    | some e => .ok (e.2, none)
    | none => .error "IndexError: empty persona table"

/-- A default record standing for an out-of-range heap read; never reached
on well-formed states (every table address points into the heap). -/
def dfltPersonaRec : PersonaRec :=
  { name := "", prompt := "", image := "", entryMessage := "" }

/-- `get_persona` (persona_utils.py lines 440-488): resolves the stored
record, takes a `.copy()` of it (a fresh heap address), and on the copy
only: defaults a falsy `image` to `""`, appends
`PERSONA_INTERACTION_INSTRUCTIONS` to the prompt, and sets `path` from the
normalized name (the record's own display name in the random branch).
Returns the new manager state and the address of the returned copy. -/
def getPersona (st : PMState) (name : Option String) (randPick : ℕ) :
    Except String (PMState × ℕ) :=
  match resolvePersona st name randPick with
  | .error e => .error e
  | .ok (addr, usedName) =>
    let orig := st.heap.getD addr dfltPersonaRec
    let copy1 := if orig.image = "" then { orig with image := "" } else orig
    let copy2 :=
      { copy1 with prompt := copy1.prompt ++ PERSONA_INTERACTION_INSTRUCTIONS }
    let personaKey :=
      match usedName with
      | some n => folderNameOf n
      | none => folderNameOf copy2.name
    let copy3 :=
      { copy2 with path := some (st.personasDir ++ "/" ++ personaKey) }
    .ok ({ st with heap := st.heap ++ [copy3] }, st.heap.length)

/-! ## Association-list lemmas -/

theorem find?_key_insert_map {α : Type} (l : List (String × α)) (k : String)
    (v : α) (hany : l.any (fun p => p.1 == k) = true) :
    (l.map (fun p => if p.1 = k then (k, v) else p)).find?
      (fun p => p.1 == k) = some (k, v) := by
  induction l with
  | nil => simp at hany
  | cons hd tl ih =>
    rw [List.map_cons]
    by_cases h : hd.1 = k
    · rw [if_pos h]
      exact List.find?_cons_of_pos _ (by simp)
    · have h1 : (hd.1 == k) = false := by simp [h]
      have htl : tl.any (fun p => p.1 == k) = true := by
        simp only [List.any_cons, Bool.or_eq_true] at hany
        rcases hany with h2 | h2
        · rw [h1] at h2; cases h2
        · exact h2
      rw [if_neg h, List.find?_cons_of_neg _ (by simp [h])]
      exact ih htl

theorem find?_key_insert_map_ne {α : Type} (l : List (String × α))
    (k k' : String) (v : α) (hne : k' ≠ k) :
    (l.map (fun p => if p.1 = k then (k, v) else p)).find?
      (fun p => p.1 == k') = l.find? (fun p => p.1 == k') := by
  induction l with
  | nil => rfl
  | cons hd tl ih =>
    rw [List.map_cons]
    by_cases h : hd.1 = k
    · rw [if_pos h]
      rw [List.find?_cons_of_neg _ (by simp; exact fun hh => hne hh.symm)]
      rw [ih]
      have h3 : ¬ ((fun p : String × α => p.1 == k') hd = true) := by
        simp [h]; exact fun hh => hne hh.symm
      exact (List.find?_cons_of_neg (p := fun q => q.1 == k') (a := hd) tl h3).symm
    · rw [if_neg h]
      by_cases h' : hd.1 = k'
      · rw [List.find?_cons_of_pos _ (by simp [h']),
          List.find?_cons_of_pos _ (by simp [h'])]
      · rw [List.find?_cons_of_neg _ (by simp [h']),
          List.find?_cons_of_neg _ (by simp [h'])]
        exact ih

theorem lookupAssoc_insertAssoc_self {α : Type} (l : List (String × α))
    (k : String) (v : α) :
    lookupAssoc (insertAssoc l k v) k = some v := by
  unfold lookupAssoc insertAssoc
  by_cases hany : l.any (fun p => p.1 == k) = true
  · rw [if_pos hany, find?_key_insert_map l k v hany]
    rfl
  · rw [if_neg hany, List.find?_append]
    have hnone : l.find? (fun p => p.1 == k) = none := by
      rw [List.find?_eq_none]
      intro x hx hpx
      exact hany (List.any_eq_true.mpr ⟨x, hx, hpx⟩)
    simp [hnone, List.find?]

theorem lookupAssoc_insertAssoc_ne {α : Type} (l : List (String × α))
    (k k' : String) (v : α) (hne : k' ≠ k) :
    lookupAssoc (insertAssoc l k v) k' = lookupAssoc l k' := by
  unfold lookupAssoc insertAssoc
  by_cases hany : l.any (fun p => p.1 == k) = true
  · rw [if_pos hany, find?_key_insert_map_ne l k k' v hne]
  · rw [if_neg hany, List.find?_append]
    have hkk' : ((k : String) == k') = false := by
      simp only [beq_eq_false_iff_ne, ne_eq]
      exact fun hh => hne hh.symm
    have : List.find? (fun p => p.1 == k') [(k, v)] = none := by
      simp [List.find?_cons, hkk']
    rw [this, Option.or_none]

theorem lookupAssoc_removeAssoc_self {α : Type} (l : List (String × α))
    (k : String) :
    lookupAssoc (removeAssoc l k) k = none := by
  unfold lookupAssoc removeAssoc
  have : (l.filter (fun p => !(p.1 == k))).find? (fun p => p.1 == k) = none := by
    rw [List.find?_eq_none]
    intro x hx
    have := (List.mem_filter.mp hx).2
    simp at this
    simp [this]
  simp [this]

/-! ## Concrete inputs used by counterexamples and witnesses -/

/-- A wall-clock instant used in concrete scenarios. -/
def dtExA : PyDateTime := ⟨2025, 1, 1, 12, 0, 0, 0⟩

/-- The same wall-clock second as `dtExA`, half a second later: a later,
distinct call instant whose second-granularity format is identical. -/
def dtExB : PyDateTime := ⟨2025, 1, 1, 12, 0, 0, 500000⟩

/-! ## Claim C5 -/

/-- Claim C5: for every process handle whose process has already exited when
terminate is called (the initial `poll()` reports an exit code), the function
returns the Graceful result (`True`) immediately, sending neither the
cooperative `SIGTERM` nor a forceful kill, after zero waiting-loop polls. -/
theorem claim5_already_dead_graceful (exited : ProcModel) (timeout : ℚ)
    (h : exited 0 = true) :
    terminateProcessGracefully exited timeout =
      { graceful := true, signals := [], polls := 0 } := by
  unfold terminateProcessGracefully
  rw [if_pos h]

/-- Witness for C5 at a concrete already-exited process. -/
theorem claim5_witness :
    terminateProcessGracefully (fun _ => true) 3 =
      { graceful := true, signals := [], polls := 0 } :=
  claim5_already_dead_graceful (fun _ => true) 3 rfl

/-! ## Claim C6 -/

theorem termPollLoop_none_of_never (exited : ProcModel)
    (h : ∀ k, exited k = false) :
    ∀ fuel k, termPollLoop exited k fuel = none := by
  intro fuel
  induction fuel with
  | zero => intro k; rfl
  | succ n ih => intro k; simp [termPollLoop, h k, ih]

/-- Claim C6: a live process that never exits in response to the cooperative
signal is polled at the fixed 100 ms interval for exactly
`int(timeout * 10)` iterations — at most `timeout / 0.1` — after which a
forceful kill is issued and the Forced result (`False`) is returned; the
loop is bounded, so terminate always returns. -/
theorem claim6_forced_bounded (exited : ProcModel) (timeout : ℚ)
    (ht : 0 ≤ timeout) (h : ∀ k, exited k = false) :
    terminateProcessGracefully exited timeout =
      { graceful := false, signals := [Sig.term, Sig.kill],
        polls := (⌊timeout * 10⌋).toNat } ∧
    (((⌊timeout * 10⌋).toNat : ℚ) ≤ timeout / (1 / 10)) := by
  constructor
  · unfold terminateProcessGracefully
    rw [if_neg (by simp [h 0])]
    simp only [termPollLoop_none_of_never exited h]
  · have h10 : (0 : ℚ) ≤ timeout * 10 := by positivity
    have hnn : (0 : ℤ) ≤ ⌊timeout * 10⌋ := Int.floor_nonneg.mpr h10
    have heq : timeout / (1 / 10) = timeout * 10 := by
      rw [div_eq_mul_inv, one_div, inv_inv]
    rw [heq]
    have hcast : ((⌊timeout * 10⌋.toNat : ℕ) : ℚ) = ((⌊timeout * 10⌋ : ℤ) : ℚ) := by
      rw [← Int.cast_natCast, Int.toNat_of_nonneg hnn]
    rw [hcast]
    exact Int.floor_le _

/-- Witness for C6: a process ignoring the signal, `timeout = 3`, gives the
Forced result after 30 polls, and 30 ≤ 3 / 0.1. -/
theorem claim6_witness :
    terminateProcessGracefully (fun _ => false) 3 =
      { graceful := false, signals := [Sig.term, Sig.kill], polls := 30 } ∧
    ((30 : ℚ) ≤ 3 / (1 / 10)) := by
  obtain ⟨h1, h2⟩ :=
    claim6_forced_bounded (fun _ => false) 3 (by norm_num) (fun _ => rfl)
  have hf : (⌊(3 : ℚ) * 10⌋).toNat = 30 := by
    rw [show ⌊(3 : ℚ) * 10⌋ = 30 from by norm_num]
    rfl
  refine ⟨?_, ?_⟩
  · rw [h1, hf]
  · rw [hf] at h2
    exact_mod_cast h2

/-! ## Claim C7 -/

/-- The `status` field of a webhook response body, when one was returned. -/
def statusFieldOf : WebhookResponse → Option String
  | .json s _ _ _ => some s
  | .httpException _ _ => none

/-- Counterexample to C7 as stated: the unknown event kind
`"transcription_ready"` is accepted (HTTP 200 JSON, nothing persisted), but
the response body's `status` field is `"error"`, not a warning
classification. -/
theorem claim7_counterexample :
    (meetingbaasWebhook [] dtExA ⟨"transcription_ready", {}⟩).1 =
      .json "error" "Unknown webhook event: transcription_ready" none none ∧
    statusFieldOf (meetingbaasWebhook [] dtExA ⟨"transcription_ready", {}⟩).1 =
      some "error" ∧
    statusFieldOf (meetingbaasWebhook [] dtExA ⟨"transcription_ready", {}⟩).1 ≠
      some "warning" ∧
    (meetingbaasWebhook [] dtExA ⟨"transcription_ready", {}⟩).2 = [] := by
  refine ⟨rfl, rfl, ?_, rfl⟩
  decide

/-- Claim C7 (amended): for every webhook event whose kind is none of
`complete`, `failed`, or `bot.status_change`, the handler accepts the event
— it answers with an HTTP 200 JSON body rather than raising — and persists
nothing, but the body's `status` field is `"error"` (only the log line is
warning-level), carrying the message `"Unknown webhook event: <kind>"`. -/
theorem claim7_unknown_kind (cache : MetaCache) (now : PyDateTime)
    (ev : MeetingWebhookEvent)
    (h1 : ev.event ≠ "complete") (h2 : ev.event ≠ "failed")
    (h3 : ev.event ≠ "bot.status_change") :
    meetingbaasWebhook cache now ev =
      (.json "error" ("Unknown webhook event: " ++ ev.event) none none,
        cache) := by
  unfold meetingbaasWebhook
  rw [if_neg h1, if_neg h2, if_neg h3]

/-- Witness for C7 at a concrete unknown event kind. -/
theorem claim7_witness :
    meetingbaasWebhook [] dtExA ⟨"recording_ready", {}⟩ =
      (.json "error" "Unknown webhook event: recording_ready" none none,
        []) :=
  claim7_unknown_kind [] dtExA ⟨"recording_ready", {}⟩
    (by decide) (by decide) (by decide)

/-! ## Claim C9 -/

/-- Claim C9: a session-creation request with an empty `meeting_url` is
rejected with the 400 validation error before any resource is touched: the
state (in particular the `MEETING_DETAILS` session table) is unchanged, and
no effect — neither the remote provider call nor a process spawn — occurs. -/
theorem claim9_empty_url_rejected (st : ServerState) (req : BotRequest)
    (ctx : JoinCtx) (h : req.meetingUrl = "") :
    joinMeeting st req ctx =
      (.badRequest "Meeting URL is required" "error", st, []) := by
  unfold joinMeeting
  rw [if_pos h]

/-- Witness for C9 at a concrete empty-URL request. -/
theorem claim9_witness :
    joinMeeting
        { meetingDetails := [], pipecatProcesses := [],
          pipecatConnections := [], activeConnections := [],
          closingFlags := [] }
        { meetingUrl := "" }
        { generatedClientId := "u1", websocketUrl := "ws://h/ws",
          personaKeys := ["alice"], randomPersona := some "alice",
          apiBotId := some "mb1" } =
      (.badRequest "Meeting URL is required" "error",
        { meetingDetails := [], pipecatProcesses := [],
          pipecatConnections := [], activeConnections := [],
          closingFlags := [] },
        []) :=
  claim9_empty_url_rejected _ _ _ rfl

/-! ## Claim C3 -/

theorem flatten_words_head (ts : List TranscriptSegment) (hne : ts ≠ [])
    (hfw : (ts.head hne).words ≠ []) :
    ((ts.map (·.words)).flatten).head? = (ts.head hne).words.head? := by
  cases ts with
  | nil => exact absurd rfl hne
  | cons a rest =>
    simp only [List.head_cons] at hfw ⊢
    cases hw : a.words with
    | nil => exact absurd hw hfw
    | cons w ws => simp [List.map_cons, List.flatten_cons, hw]

theorem flatten_words_getLast :
    ∀ (ts : List TranscriptSegment) (hne : ts ≠ []),
      (ts.getLast hne).words ≠ [] →
      ((ts.map (·.words)).flatten).getLast? = (ts.getLast hne).words.getLast? := by
  intro ts
  induction ts with
  | nil => intro hne _; exact absurd rfl hne
  | cons a rest ih =>
    intro hne hlw
    cases rest with
    | nil =>
      simp only [List.getLast_singleton] at hlw ⊢
      simp [List.map_cons, List.flatten_cons]
    | cons b rs =>
      have hne' : b :: rs ≠ [] := by simp
      have hlast : (a :: b :: rs).getLast hne = (b :: rs).getLast hne' :=
        List.getLast_cons hne'
      rw [hlast] at hlw
      have hih := ih hne' hlw
      have hflat_some : (((b :: rs).map (·.words)).flatten).getLast?.isSome := by
        rw [hih, List.getLast?_eq_getLast _ hlw]
        rfl
      have hflatne : ((b :: rs).map (·.words)).flatten ≠ [] :=
        List.getLast?_isSome.mp hflat_some
      rw [List.map_cons, List.flatten_cons,
        List.getLast?_append_of_ne_nil _ hflatne, hih, hlast]

theorem computeDuration_eq (ts : List TranscriptSegment) (hne : ts ≠ [])
    (hfw : (ts.head hne).words ≠ []) (hlw : (ts.getLast hne).words ≠ []) :
    computeDuration ts =
      some (((ts.getLast hne).words.getLast hlw).endTime
        - ((ts.head hne).words.head hfw).start) := by
  unfold computeDuration
  simp only [List.head?_eq_head hne, List.getLast?_eq_getLast ts hne]
  simp only [List.head?_eq_head hfw, List.getLast?_eq_getLast _ hlw]

theorem specDurationAllWords_eq (ts : List TranscriptSegment) (hne : ts ≠ [])
    (hfw : (ts.head hne).words ≠ []) (hlw : (ts.getLast hne).words ≠ []) :
    specDurationAllWords ts =
      some (((ts.getLast hne).words.getLast hlw).endTime
        - ((ts.head hne).words.head hfw).start) := by
  unfold specDurationAllWords
  simp only [flatten_words_head ts hne hfw, flatten_words_getLast ts hne hlw]
  simp only [List.head?_eq_head hfw, List.getLast?_eq_getLast _ hlw]

/-- A transcript whose first segment has no words while its second does: the
"first word across all segments" exists, yet the code stores no duration. -/
def segNoWords : TranscriptSegment := { speaker := "a", words := [] }

/-- The only segment with words in the counterexample transcript. -/
def segOneWord : TranscriptSegment :=
  { speaker := "b", words := [{ start := 1, endTime := 2, word := "w" }] }

/-- The `complete` payload carrying the counterexample transcript. -/
def mdEmptyFirst : MeetingCompletedData :=
  { botId := "b", mp4 := "https://u", speakers := ["a", "b"],
    transcript := [segNoWords, segOneWord] }

/-- Counterexample to C3 as stated: in the payload `mdEmptyFirst` both
endpoints across all segments exist (the single word spans 1.0 to 2.0, so the
claim's span is 1.0), yet the stored `duration` is unset, because the code
only looks at the first segment's words, which are empty here. -/
theorem claim3_counterexample :
    (lookupAssoc (saveMeetingTranscript [] "b" mdEmptyFirst dtExA).2
        (saveMeetingTranscript [] "b" mdEmptyFirst dtExA).1).map
        (·.duration) = some none ∧
    specDurationAllWords mdEmptyFirst.transcript = some 1 ∧
    (none : Option ℚ) ≠ some 1 := by
  have h2 : specDurationAllWords mdEmptyFirst.transcript =
      some ((2 : ℚ) - 1) := rfl
  refine ⟨rfl, ?_, by simp⟩
  rw [h2]
  norm_num

/-- Claim C3 (amended): for every `complete` payload, the stored `duration`
is the last word's `end` of the LAST segment minus the first word's `start`
of the FIRST segment, and is unset when the transcript is empty or the first
or last segment has no words; whenever the first and the last segment both
have words this agrees with the spec's span across all segments (in
particular a two-segment payload spanning t=0.0 to t=9.0 stores 9.0). -/
theorem claim3_duration (cache : MetaCache) (b : String)
    (md : MeetingCompletedData) (t : PyDateTime) (hne : md.transcript ≠ [])
    (hfw : (md.transcript.head hne).words ≠ [])
    (hlw : (md.transcript.getLast hne).words ≠ []) :
    lookupAssoc (saveMeetingTranscript cache b md t).2
        (saveMeetingTranscript cache b md t).1 = some (metaOf b md t) ∧
    (metaOf b md t).duration =
      some (((md.transcript.getLast hne).words.getLast hlw).endTime
        - ((md.transcript.head hne).words.head hfw).start) ∧
    (metaOf b md t).duration = specDurationAllWords md.transcript := by
  refine ⟨lookupAssoc_insertAssoc_self cache _ _, ?_, ?_⟩
  · exact computeDuration_eq md.transcript hne hfw hlw
  · rw [show (metaOf b md t).duration = computeDuration md.transcript from rfl,
      computeDuration_eq md.transcript hne hfw hlw,
      specDurationAllWords_eq md.transcript hne hfw hlw]

/-- First segment of the spec's Scenario B payload: first word starts at
t=0.0. -/
def segScenB1 : TranscriptSegment :=
  { speaker := "s1",
    words := [{ start := 0, endTime := 1, word := "hello" },
              { start := 2, endTime := 4, word := "there" }] }

/-- Second segment of Scenario B: last word ends at t=9.0. -/
def segScenB2 : TranscriptSegment :=
  { speaker := "s2",
    words := [{ start := 5, endTime := 6, word := "ok" },
              { start := 8, endTime := 9, word := "bye" }] }

/-- The Scenario B `complete` payload. -/
def mdScenB : MeetingCompletedData :=
  { botId := "b", mp4 := "https://u", speakers := ["s1", "s2"],
    transcript := [segScenB1, segScenB2] }

/-- Witness for C3 at Scenario B: the stored duration is 9.0 and agrees with
the across-all-segments span. -/
theorem claim3_witness :
    lookupAssoc (saveMeetingTranscript [] "b" mdScenB dtExA).2
        (saveMeetingTranscript [] "b" mdScenB dtExA).1 =
      some (metaOf "b" mdScenB dtExA) ∧
    (metaOf "b" mdScenB dtExA).duration = some 9 ∧
    (metaOf "b" mdScenB dtExA).duration =
      specDurationAllWords mdScenB.transcript := by
  obtain ⟨h1, h2, h3⟩ := claim3_duration [] "b" mdScenB dtExA
    (by decide) (by decide) (by decide)
  refine ⟨h1, ?_, h3⟩
  rw [h2]
  exact (by norm_num : some ((9 : ℚ) - 0) = some 9)

/-! ## Claim C4 -/

theorem meetingIdOf_fmt_inj (b : String) (t1 t2 : PyDateTime)
    (h : meetingIdOf b t1 = meetingIdOf b t2) :
    fmtYmdHms t1 = fmtYmdHms t2 := by
  unfold meetingIdOf at h
  have hd := congrArg String.data h
  simp only [String.data_append] at hd
  rw [List.append_assoc, List.append_assoc] at hd
  exact String.ext (List.append_cancel_left (List.append_cancel_left hd))

/-- A `complete` payload used for the repeated-webhook scenarios. -/
def mdPlain : MeetingCompletedData :=
  { botId := "b", mp4 := "https://u", speakers := ["x"], transcript := [] }

/-- Counterexample to C4 as stated: two distinct calls to the completion
handler — the instants `dtExA` and `dtExB` differ by half a second — with
the same bot id produce the SAME `meeting_id` (the id only has second
granularity) and leave a single metadata record, the second overwriting the
first. -/
theorem claim4_counterexample :
    dtExA ≠ dtExB ∧
    (saveMeetingTranscript [] "b" mdPlain dtExA).1 =
      (saveMeetingTranscript (saveMeetingTranscript [] "b" mdPlain dtExA).2
        "b" mdPlain dtExB).1 ∧
    (saveMeetingTranscript (saveMeetingTranscript [] "b" mdPlain dtExA).2
        "b" mdPlain dtExB).2.length = 1 := by
  refine ⟨by decide, rfl, rfl⟩

/-- Claim C4 (amended): two calls to the completion handler with the same
remote bot id produce distinct `meeting_id` values — and then two distinct
metadata records in the index — exactly when their wall-clock instants
differ at second granularity (`%Y%m%d_%H%M%S`); calls within the same
formatted second collide and the second record overwrites the first (see the
counterexample). -/
theorem claim4_distinct_when_fmt_differs (cache : MetaCache) (b : String)
    (d1 d2 : MeetingCompletedData) (t1 t2 : PyDateTime)
    (hfmt : fmtYmdHms t1 ≠ fmtYmdHms t2) :
    (saveMeetingTranscript cache b d1 t1).1 ≠
      (saveMeetingTranscript (saveMeetingTranscript cache b d1 t1).2
        b d2 t2).1 ∧
    lookupAssoc (saveMeetingTranscript (saveMeetingTranscript cache b d1 t1).2
        b d2 t2).2 (saveMeetingTranscript cache b d1 t1).1 =
      some (metaOf b d1 t1) ∧
    lookupAssoc (saveMeetingTranscript (saveMeetingTranscript cache b d1 t1).2
        b d2 t2).2 (saveMeetingTranscript (saveMeetingTranscript cache b d1 t1).2
        b d2 t2).1 = some (metaOf b d2 t2) := by
  have hmid : meetingIdOf b t1 ≠ meetingIdOf b t2 :=
    fun h => hfmt (meetingIdOf_fmt_inj b t1 t2 h)
  refine ⟨hmid, ?_, ?_⟩
  · show lookupAssoc (insertAssoc (insertAssoc cache (meetingIdOf b t1)
      (metaOf b d1 t1)) (meetingIdOf b t2) (metaOf b d2 t2))
      (meetingIdOf b t1) = some (metaOf b d1 t1)
    rw [lookupAssoc_insertAssoc_ne _ _ _ _ hmid,
      lookupAssoc_insertAssoc_self]
  · show lookupAssoc (insertAssoc (insertAssoc cache (meetingIdOf b t1)
      (metaOf b d1 t1)) (meetingIdOf b t2) (metaOf b d2 t2))
      (meetingIdOf b t2) = some (metaOf b d2 t2)
    rw [lookupAssoc_insertAssoc_self]

/-- A later instant in a different wall-clock second. -/
def dtExC : PyDateTime := ⟨2025, 1, 1, 12, 0, 1, 0⟩

/-- Witness for C4 at instants one second apart: distinct ids, two records. -/
theorem claim4_witness :
    (saveMeetingTranscript [] "b" mdPlain dtExA).1 ≠
      (saveMeetingTranscript (saveMeetingTranscript [] "b" mdPlain dtExA).2
        "b" mdPlain dtExC).1 ∧
    lookupAssoc (saveMeetingTranscript (saveMeetingTranscript [] "b" mdPlain
        dtExA).2 "b" mdPlain dtExC).2
      (saveMeetingTranscript [] "b" mdPlain dtExA).1 =
      some (metaOf "b" mdPlain dtExA) ∧
    lookupAssoc (saveMeetingTranscript (saveMeetingTranscript [] "b" mdPlain
        dtExA).2 "b" mdPlain dtExC).2
      (saveMeetingTranscript (saveMeetingTranscript [] "b" mdPlain dtExA).2
        "b" mdPlain dtExC).1 =
      some (metaOf "b" mdPlain dtExC) :=
  claim4_distinct_when_fmt_differs [] "b" mdPlain mdPlain dtExA dtExC
    (by decide)

/-! ## Claim C8 -/

/-- Claim C8: `get_recording_path` returns a path exactly when a metadata
entry exists, it records a recording path, and the file exists on disk; in
particular, right after `save_meeting_transcript` the stored metadata has no
recording path yet (the background download has not completed), so the
lookup answers NotFound, and after the download-success update the recorded
path is returned (given the file is on disk). -/
theorem claim8_recording_path :
    (∀ (cache : MetaCache) (fs : List String) (mid p : String),
      getRecordingPath cache fs mid = some p ↔
        ∃ meta, lookupAssoc cache mid = some meta ∧
          meta.recordingPath = some p ∧ p ∈ fs) ∧
    (∀ (cache : MetaCache) (b : String) (md : MeetingCompletedData)
        (t : PyDateTime) (fs : List String),
      getRecordingPath (saveMeetingTranscript cache b md t).2 fs
        (saveMeetingTranscript cache b md t).1 = none) ∧
    (∀ (cache : MetaCache) (mid : String) (meta : TranscriptMetadata)
        (fs : List String), recordingPathFor mid ∈ fs →
      getRecordingPath (downloadRecordingSuccess cache mid meta) fs mid =
        some (recordingPathFor mid)) := by
  refine ⟨?_, ?_, ?_⟩
  · intro cache fs mid p
    cases h1 : lookupAssoc cache mid with
    | none => simp [getRecordingPath, h1]
    | some meta =>
      cases h2 : meta.recordingPath with
      | none => simp [getRecordingPath, h1, h2]
      | some q =>
        by_cases hmem : q ∈ fs
        · simp [getRecordingPath, h1, h2, hmem]
          rintro rfl
          exact hmem
        · simp [getRecordingPath, h1, h2, hmem]
          rintro rfl hmem'
          exact hmem hmem'
  · intro cache b md t fs
    have h := lookupAssoc_insertAssoc_self cache (meetingIdOf b t)
      (metaOf b md t)
    have hrp : (metaOf b md t).recordingPath = none := rfl
    simp [getRecordingPath, saveMeetingTranscript, h, hrp]
  · intro cache mid meta fs hm
    have h := lookupAssoc_insertAssoc_self cache mid
      { meta with recordingPath := some (recordingPathFor mid) }
    simp [getRecordingPath, downloadRecordingSuccess, h, hm]

/-- A metadata record as stored right after a `complete` webhook. -/
def metaFresh : TranscriptMetadata :=
  { botId := "b", meetingId := "m", timestamp := dtExA, duration := none,
    numSpeakers := 1, recordingPath := none, transcriptPath := "tp" }

/-- Witness for C8: after the download-success update for meeting `"m"`,
with the file on disk, the recorded path is returned. -/
theorem claim8_witness :
    getRecordingPath (downloadRecordingSuccess [] "m" metaFresh)
      ["data/recordings/m.mp4"] "m" = some "data/recordings/m.mp4" :=
  claim8_recording_path.2.2 [] "m" metaFresh ["data/recordings/m.mp4"]
    (by decide)

/-! ## Claims C1 and C2: the leave flow -/

theorem leaveBot_resolved (st : ServerState) (b : String)
    (reqBotId : Option String) (apiOk : Bool) (cid : String) (hb : b ≠ "")
    (hfind : findClientId st.meetingDetails (some b) = some cid) :
    leaveBot st b reqBotId apiOk =
      (.done "Bot removal request processed"
          (if apiOk then "success" else "partial") b,
        (leaveProcessPhase (leaveSocketsPhase st cid).1 cid).1,
        [LeaveStep.callLeaveApi] ++ (leaveSocketsPhase st cid).2 ++
          (leaveProcessPhase (leaveSocketsPhase st cid).1 cid).2) := by
  simp [leaveBot, pyTruthyOpt, hb, hfind]

theorem leaveSocketsPhase_both (st : ServerState) (cid : String)
    (hp : cid ∈ st.pipecatConnections) (ha : cid ∈ st.activeConnections) :
    leaveSocketsPhase st cid =
      ({ meetingDetails := st.meetingDetails
         pipecatProcesses := st.pipecatProcesses
         pipecatConnections :=
           st.pipecatConnections.filter (fun c => !(c == cid))
         activeConnections :=
           st.activeConnections.filter (fun c => !(c == cid))
         closingFlags := st.closingFlags ++ [cid] },
        [LeaveStep.markClosing, LeaveStep.disconnectSubprocess,
          LeaveStep.disconnectClient, LeaveStep.gracePause]) := by
  unfold leaveSocketsPhase
  simp [hp, ha]

theorem leaveSocketsPhase_meetingDetails (st : ServerState) (cid : String) :
    (leaveSocketsPhase st cid).1.meetingDetails = st.meetingDetails := by
  unfold leaveSocketsPhase
  by_cases h1 : cid ∈ st.pipecatConnections <;>
    by_cases h2 : cid ∈ st.activeConnections <;> simp [h1, h2]

theorem leaveSocketsPhase_pipecatProcesses (st : ServerState) (cid : String) :
    (leaveSocketsPhase st cid).1.pipecatProcesses = st.pipecatProcesses := by
  unfold leaveSocketsPhase
  by_cases h1 : cid ∈ st.pipecatConnections <;>
    by_cases h2 : cid ∈ st.activeConnections <;> simp [h1, h2]

theorem not_mem_filter_self (l : List String) (cid : String) :
    cid ∉ l.filter (fun c => !(c == cid)) := by
  intro h
  have := (List.mem_filter.mp h).2
  simp at this

theorem leaveSocketsPhase_not_pipecat (st : ServerState) (cid : String) :
    cid ∉ (leaveSocketsPhase st cid).1.pipecatConnections := by
  unfold leaveSocketsPhase
  by_cases h1 : cid ∈ st.pipecatConnections <;>
    by_cases h2 : cid ∈ st.activeConnections <;>
    simp [h1, h2, not_mem_filter_self]

theorem leaveSocketsPhase_not_active (st : ServerState) (cid : String) :
    cid ∉ (leaveSocketsPhase st cid).1.activeConnections := by
  unfold leaveSocketsPhase
  by_cases h1 : cid ∈ st.pipecatConnections <;>
    by_cases h2 : cid ∈ st.activeConnections <;>
    simp [h1, h2, not_mem_filter_self]

theorem leaveProcessPhase_full (st : ServerState) (cid : String)
    (proc : ProcModel)
    (hproc : lookupAssoc st.pipecatProcesses cid = some proc)
    (hdet : (lookupAssoc st.meetingDetails cid).isSome = true) :
    leaveProcessPhase st cid =
      ({ st with
          pipecatProcesses := removeAssoc st.pipecatProcesses cid,
          meetingDetails := removeAssoc st.meetingDetails cid },
        (if proc 0 = false then [LeaveStep.terminateProcess] else []) ++
          [LeaveStep.removeProcessEntry] ++ [LeaveStep.removeDetails]) := by
  unfold leaveProcessPhase
  rw [hproc]
  simp [hdet]

theorem findClientId_spec (details : List (String × MeetingDetails))
    (mb : Option String) (cid : String)
    (h : findClientId details mb = some cid) :
    ∃ d, (cid, d) ∈ details ∧ d.botId = mb := by
  unfold findClientId at h
  cases hf : details.find? (fun p => p.2.botId == mb) with
  | none => rw [hf] at h; cases h
  | some p =>
    rw [hf] at h
    have hcid : p.1 = cid := by injection h
    have hmem := List.mem_of_find?_eq_some hf
    have hpred := List.find?_some hf
    refine ⟨p.2, ?_, ?_⟩
    · rw [← hcid]; exact hmem
    · simpa using hpred

theorem findClientId_lookup_isSome (details : List (String × MeetingDetails))
    (mb : Option String) (cid : String)
    (h : findClientId details mb = some cid) :
    (lookupAssoc details cid).isSome = true := by
  obtain ⟨d, hmem, _⟩ := findClientId_spec details mb cid h
  unfold lookupAssoc
  have hsome : (details.find? (fun p => p.1 == cid)).isSome = true :=
    List.find?_isSome.mpr ⟨(cid, d), hmem, by simp⟩
  cases hf : details.find? (fun p => p.1 == cid) with
  | none => rw [hf] at hsome; cases hsome
  | some p => rfl

theorem findClientId_removeAssoc_none
    (details : List (String × MeetingDetails)) (b : String) (cid : String)
    (huniq : ∀ p ∈ details, p.2.botId = some b → p.1 = cid) :
    findClientId (removeAssoc details cid) (some b) = none := by
  unfold findClientId removeAssoc
  have hnone : (details.filter fun p => !(p.1 == cid)).find?
      (fun p => p.2.botId == some b) = none := by
    rw [List.find?_eq_none]
    intro x hx hpred
    have hx1 := List.mem_filter.mp hx
    have hbot : x.2.botId = some b := by simpa using hpred
    have hkey := huniq x hx1.1 hbot
    have h2 := hx1.2
    simp [hkey] at h2
  rw [hnone]
  rfl

/-- The meeting details held by the concrete teardown scenarios. -/
def exDetails : MeetingDetails :=
  { meetingUrl := "https://meet.example/abc", personaName := "alice",
    botId := some "b1", enableTools := true, audioFrequency := "16khz",
    entryMessage := none, textMessage := none }

/-- A server with one session whose both socket roles are registered and
whose child process is running. -/
def exStateBoth : ServerState :=
  { meetingDetails := [("c1", exDetails)],
    pipecatProcesses := [("c1", fun _ => false)],
    pipecatConnections := ["c1"], activeConnections := ["c1"],
    closingFlags := [] }

/-- Counterexample to C1 as stated: on a session with both socket roles
registered, the recorded teardown trace places the grace pause AFTER the
client-socket disconnection — the claim's order, with the pause between the
two disconnections, does not occur. -/
theorem claim1_counterexample :
    (leaveBot exStateBoth "b1" none true).2.2 =
      [.callLeaveApi, .markClosing, .disconnectSubprocess,
        .disconnectClient, .gracePause, .terminateProcess,
        .removeProcessEntry, .removeDetails] ∧
    ((leaveBot exStateBoth "b1" none true).2.2).indexOf
        LeaveStep.disconnectClient <
      ((leaveBot exStateBoth "b1" none true).2.2).indexOf
        LeaveStep.gracePause := by
  exact ⟨rfl, by decide⟩

/-- Claim C1 (amended): whenever the session resolves and both socket roles
are registered (and a running process entry exists), the leave flow's step
order is: provider leave call, mark closing, disconnect subprocess socket,
disconnect client socket, grace pause (the ~500 ms sleep follows BOTH
disconnections rather than sitting between them), terminate process, remove
the process entry, remove the session details. -/
theorem claim1_teardown_order (st : ServerState) (b : String)
    (reqBotId : Option String) (apiOk : Bool) (cid : String)
    (proc : ProcModel) (hb : b ≠ "")
    (hfind : findClientId st.meetingDetails (some b) = some cid)
    (hp : cid ∈ st.pipecatConnections) (ha : cid ∈ st.activeConnections)
    (hproc : lookupAssoc st.pipecatProcesses cid = some proc)
    (hrun : proc 0 = false) :
    (leaveBot st b reqBotId apiOk).2.2 =
      [.callLeaveApi, .markClosing, .disconnectSubprocess,
        .disconnectClient, .gracePause, .terminateProcess,
        .removeProcessEntry, .removeDetails] := by
  rw [leaveBot_resolved st b reqBotId apiOk cid hb hfind]
  have hdet := findClientId_lookup_isSome st.meetingDetails (some b) cid hfind
  have hproc' : lookupAssoc (leaveSocketsPhase st cid).1.pipecatProcesses cid
      = some proc := by
    rw [leaveSocketsPhase_pipecatProcesses]; exact hproc
  have hdet' : (lookupAssoc (leaveSocketsPhase st cid).1.meetingDetails
      cid).isSome = true := by
    rw [leaveSocketsPhase_meetingDetails]; exact hdet
  rw [leaveProcessPhase_full _ cid proc hproc' hdet',
    leaveSocketsPhase_both st cid hp ha]
  simp [hrun]

/-- Witness for C1's amended ordering at the concrete state. -/
theorem claim1_witness :
    (leaveBot exStateBoth "b1" none true).2.2 =
      [.callLeaveApi, .markClosing, .disconnectSubprocess,
        .disconnectClient, .gracePause, .terminateProcess,
        .removeProcessEntry, .removeDetails] :=
  claim1_teardown_order exStateBoth "b1" none true "c1" (fun _ => false)
    (by decide) rfl (by decide) (by decide) rfl rfl

/-- A server with one session that has NO process-table entry (the child
process was never spawned, e.g. the bridge socket never connected). -/
def exStateNoProc : ServerState :=
  { meetingDetails := [("c1", exDetails)], pipecatProcesses := [],
    pipecatConnections := [], activeConnections := [], closingFlags := [] }

/-- Counterexample to C2 as stated: the leave flow on a session without a
process-table entry reports `"success"`, yet the session's
`MEETING_DETAILS` entry survives and the remote bot id still resolves —
the details cleanup is nested inside the process-entry branch. -/
theorem claim2_counterexample :
    (leaveBot exStateNoProc "b1" none true).1 =
      .done "Bot removal request processed" "success" "b1" ∧
    (leaveBot exStateNoProc "b1" none true).2.1.meetingDetails =
      [("c1", exDetails)] ∧
    findClientId (leaveBot exStateNoProc "b1" none true).2.1.meetingDetails
      (some "b1") = some "c1" := by
  exact ⟨rfl, rfl, rfl⟩

/-- Claim C2 (amended): when the resolved client id HAS a process-table
entry (and it alone holds the remote bot id), the completed leave flow
removes all session state — the remote bot id no longer resolves, the
details and process entries are gone, no socket of either role remains
registered — and, when the process was still running, its termination was
attempted; without a process-table entry the details entry is retained even
though the response reports success (see the counterexample). -/
theorem claim2_cleanup (st : ServerState) (b : String)
    (reqBotId : Option String) (apiOk : Bool) (cid : String)
    (proc : ProcModel) (hb : b ≠ "")
    (hfind : findClientId st.meetingDetails (some b) = some cid)
    (hproc : lookupAssoc st.pipecatProcesses cid = some proc)
    (huniq : ∀ p ∈ st.meetingDetails, p.2.botId = some b → p.1 = cid) :
    findClientId (leaveBot st b reqBotId apiOk).2.1.meetingDetails (some b)
      = none ∧
    lookupAssoc (leaveBot st b reqBotId apiOk).2.1.meetingDetails cid
      = none ∧
    lookupAssoc (leaveBot st b reqBotId apiOk).2.1.pipecatProcesses cid
      = none ∧
    cid ∉ (leaveBot st b reqBotId apiOk).2.1.pipecatConnections ∧
    cid ∉ (leaveBot st b reqBotId apiOk).2.1.activeConnections ∧
    (proc 0 = false →
      LeaveStep.terminateProcess ∈ (leaveBot st b reqBotId apiOk).2.2) := by
  have hdet := findClientId_lookup_isSome st.meetingDetails (some b) cid hfind
  have hproc' : lookupAssoc (leaveSocketsPhase st cid).1.pipecatProcesses cid
      = some proc := by
    rw [leaveSocketsPhase_pipecatProcesses]; exact hproc
  have hdet' : (lookupAssoc (leaveSocketsPhase st cid).1.meetingDetails
      cid).isSome = true := by
    rw [leaveSocketsPhase_meetingDetails]; exact hdet
  rw [leaveBot_resolved st b reqBotId apiOk cid hb hfind,
    leaveProcessPhase_full _ cid proc hproc' hdet']
  refine ⟨?_, ?_, ?_, ?_, ?_, ?_⟩
  · show findClientId (removeAssoc (leaveSocketsPhase st cid).1.meetingDetails
      cid) (some b) = none
    rw [leaveSocketsPhase_meetingDetails]
    exact findClientId_removeAssoc_none st.meetingDetails b cid huniq
  · show lookupAssoc (removeAssoc (leaveSocketsPhase st cid).1.meetingDetails
      cid) cid = none
    exact lookupAssoc_removeAssoc_self _ cid
  · show lookupAssoc (removeAssoc (leaveSocketsPhase st cid).1.pipecatProcesses
      cid) cid = none
    exact lookupAssoc_removeAssoc_self _ cid
  · show cid ∉ (leaveSocketsPhase st cid).1.pipecatConnections
    exact leaveSocketsPhase_not_pipecat st cid
  · show cid ∉ (leaveSocketsPhase st cid).1.activeConnections
    exact leaveSocketsPhase_not_active st cid
  · intro hrun
    simp [hrun]

/-- Witness for C2's amended cleanup at the concrete state with a process. -/
theorem claim2_witness :
    findClientId (leaveBot exStateBoth "b1" none true).2.1.meetingDetails
      (some "b1") = none ∧
    lookupAssoc (leaveBot exStateBoth "b1" none true).2.1.pipecatProcesses
      "c1" = none ∧
    "c1" ∉ (leaveBot exStateBoth "b1" none true).2.1.pipecatConnections ∧
    "c1" ∉ (leaveBot exStateBoth "b1" none true).2.1.activeConnections ∧
    LeaveStep.terminateProcess ∈ (leaveBot exStateBoth "b1" none true).2.2 := by
  obtain ⟨h1, h2, h3, h4, h5, h6⟩ :=
    claim2_cleanup exStateBoth "b1" none true "c1" (fun _ => false)
      (by decide) rfl rfl (by decide)
  exact ⟨h1, h3, h4, h5, h6 rfl⟩

/-! ## Claim C10 -/

/-- Claim C10: every successful `get_persona` call leaves the manager's
stored state untouched — the persona table, the personas directory, and
every previously stored persona record are unchanged — and returns a fresh
copy (allocated at the end of the heap) whose prompt has the interaction
instructions appended and whose `path` field is set. -/
theorem claim10_frame (st : PMState) (name : Option String) (randPick : ℕ)
    (st' : PMState) (addr : ℕ)
    (h : getPersona st name randPick = .ok (st', addr)) :
    st'.table = st.table ∧ st'.personasDir = st.personasDir ∧
    (∀ i, i < st.heap.length → st'.heap[i]? = st.heap[i]?) ∧
    addr = st.heap.length ∧
    ∃ r, st'.heap = st.heap ++ [r] ∧ r.path.isSome = true ∧
      ∃ base, r.prompt = base ++ PERSONA_INTERACTION_INSTRUCTIONS := by
  unfold getPersona at h
  cases hres : resolvePersona st name randPick with
  | error e => rw [hres] at h; simp at h
  | ok pr =>
    obtain ⟨a, un⟩ := pr
    rw [hres] at h
    simp only [Except.ok.injEq, Prod.mk.injEq] at h
    obtain ⟨hst, haddr⟩ := h
    subst hst
    refine ⟨rfl, rfl, ?_, haddr.symm, ?_⟩
    · intro i hi
      exact List.getElem?_append_left hi
    · exact ⟨_, rfl, rfl, _, rfl⟩

/-- A stored persona record for the C10 witness. -/
def recAlice : PersonaRec :=
  { name := "Alice", prompt := "P", image := "img", entryMessage := "hi" }

/-- A one-persona manager state. -/
def pmEx : PMState :=
  { heap := [recAlice], table := [("alice", 0)],
    personasDir := "config/personas" }

/-- The copy `get_persona` returns for `pmEx`. -/
def recAliceCopy : PersonaRec :=
  { name := "Alice", prompt := "P" ++ PERSONA_INTERACTION_INSTRUCTIONS,
    image := "img", entryMessage := "hi",
    path := some "config/personas/alice" }

/-- The manager state after one `get_persona` call on `pmEx`. -/
def pmExAfter : PMState :=
  { heap := [recAlice, recAliceCopy], table := [("alice", 0)],
    personasDir := "config/personas" }

/-- Witness for C10 at the concrete one-persona manager. -/
theorem claim10_witness :
    pmExAfter.table = pmEx.table ∧
    pmExAfter.heap[0]? = pmEx.heap[0]? ∧
    (1 : ℕ) = pmEx.heap.length := by
  have h : getPersona pmEx (some "alice") 0 = .ok (pmExAfter, 1) := rfl
  obtain ⟨h1, _, h3, h4, _⟩ := claim10_frame pmEx (some "alice") 0 pmExAfter 1 h
  exact ⟨h1, h3 0 (by decide), h4⟩

end MeetingBot
